import Mathlib

/-!
Verification of the OmniQ quantum-circuit library.

The Python wrapper layer (`omniq-python/omniq/circuit.py`, `utils.py`,
`noise.py`) is embedded directly, together with the binding classes of
`omniq/_internals/__init__.py` that it calls: `_Circuit.execute_statevector`
returns a fresh placeholder statevector ignoring the gate list,
`_Statevector.get_amplitudes` always reports `[1, 0, …, 0]`,
`_Statevector.get_norm` returns the constant `1.0`, the density-matrix
single-qubit methods are no-ops, and `_Statevector.measure` draws from the
process-global random module.  The one call target genuinely absent from the
tree is `_Circuit.get_gate_count` (used by `Circuit.execute`); it alone is
marked `Modelled from the spec:` and taken as the number of appended gates.
-/

noncomputable section

namespace OmniQ

open Complex

/-- Gate description recorded for a circuit, mirroring the `_Circuit.add_*`
binding surface: qubit indices are Python integers, angles are reals. -/
inductive Gate where
  | hadamard (q : ℤ)
  | pauliX (q : ℤ)
  | pauliY (q : ℤ)
  | pauliZ (q : ℤ)
  | cnot (control target : ℤ)
  | swapGate (q1 q2 : ℤ)
  | rotationX (q : ℤ) (angle : ℝ)
  | rotationY (q : ℤ) (angle : ℝ)
  | rotationZ (q : ℤ) (angle : ℝ)
  | phaseShift (q : ℤ) (angle : ℝ)
  | measureGate (q : ℤ) (basis : String)

/-- Python exception kinds raised by the wrapper code, with their messages. -/
inductive PyErr where
  | valueError (msg : String)
  | runtimeError (msg : String)
  | notImplementedError (msg : String)
  | indexError (msg : String)

/-- `str(e)` of a Python exception: its message. -/
def PyErr.message : PyErr → String
  | .valueError m => m
  | .runtimeError m => m
  | .notImplementedError m => m
  | .indexError m => m

/-- The state of a random source available to an execution.  The placeholder
execution path in `_internals/__init__.py` never consults it (only
`_Statevector.measure` draws randomness, from the process-global module). -/
abbrev RandomSource := ℕ → ℝ

/-- `omniq.Circuit`: qubit count, classical-bit count, appended gates. -/
structure Circuit where
  numQubits : ℕ
  numClassicalBits : ℕ
  gates : List Gate

/-- Python's `str.upper()` restricted to the ASCII gate names used here. -/
def pyUpper (s : String) : String := ⟨s.data.map Char.toUpper⟩

/-- Append a single-qubit gate built from `qubits[0]`; an empty list raises
`IndexError` as in Python, leaving the circuit unchanged. -/
def addSingleQubitGate (c : Circuit) (qubits : List ℤ) (mk : ℤ → Gate) :
    Except PyErr Unit × Circuit :=
  match qubits with
  | [] => (.error (.indexError "list index out of range"), c)
  | q :: _ => (.ok (), { c with gates := c.gates ++ [mk q] })

/-- Append a two-qubit gate built from `qubits[0]` and `qubits[1]`; fewer
than two entries raises `IndexError`, leaving the circuit unchanged. -/
def addTwoQubitGate (c : Circuit) (qubits : List ℤ) (mk : ℤ → ℤ → Gate) :
    Except PyErr Unit × Circuit :=
  match qubits with
  | q0 :: q1 :: _ => (.ok (), { c with gates := c.gates ++ [mk q0 q1] })
  | _ => (.error (.indexError "list index out of range"), c)

/-- `Circuit.add_gate` from `circuit.py`: dispatch on the upper-cased gate
name; unknown names raise `ValueError`.  No qubit-index validation is
performed.  The result pairs the raised exception (if any) with the circuit
state after the call. -/
def Circuit.add_gate (c : Circuit) (gateName : String) (qubits : List ℤ)
    (angle : Option ℝ) : Except PyErr Unit × Circuit :=
  if pyUpper gateName = "H" then addSingleQubitGate c qubits Gate.hadamard
  else if pyUpper gateName = "X" then addSingleQubitGate c qubits Gate.pauliX
  else if pyUpper gateName = "Y" then addSingleQubitGate c qubits Gate.pauliY
  else if pyUpper gateName = "Z" then addSingleQubitGate c qubits Gate.pauliZ
  else if pyUpper gateName = "CNOT" then addTwoQubitGate c qubits Gate.cnot
  else if pyUpper gateName = "SWAP" then addTwoQubitGate c qubits Gate.swapGate
  else if pyUpper gateName = "RX" then
    addSingleQubitGate c qubits (fun q => Gate.rotationX q (angle.getD 0))
  else if pyUpper gateName = "RY" then
    addSingleQubitGate c qubits (fun q => Gate.rotationY q (angle.getD 0))
  else if pyUpper gateName = "RZ" then
    addSingleQubitGate c qubits (fun q => Gate.rotationZ q (angle.getD 0))
  else if pyUpper gateName = "P" then
    addSingleQubitGate c qubits (fun q => Gate.phaseShift q (angle.getD 0))
  else (.error (.valueError ("Unknown gate: " ++ gateName)), c)

/-- `omniq.Statevector` wrapping `_Statevector` from
`_internals/__init__.py`: the placeholder carries only its qubit count — it
stores no amplitude data (`set_amplitudes` is a no-op and `get_amplitudes`
is computed from `num_qubits` alone). -/
structure Statevector where
  numQubits : ℕ

/-- Modelled from the spec: `_Circuit.get_gate_count`, called by
`Circuit.execute` (`circuit.py:96`) but defined nowhere in the tree (the
placeholder `_Circuit` lacks it); modelled as the number of appended
gates. -/
def Circuit.get_gate_count (c : Circuit) : ℕ := c.gates.length

/-- The mismatch message raised by `Circuit.execute`. -/
def mismatchMsg (stateQubits circuitQubits : ℕ) : String :=
  "Initial state has " ++ toString stateQubits ++ " qubits, but circuit expects "
    ++ toString circuitQubits ++ " qubits"

/-- `_Circuit.execute_statevector` from `_internals/__init__.py` (lines
50–52): returns a fresh placeholder statevector of the circuit's qubit
count.  It ignores the gate list and any supplied initial state, performs no
validation, and never fails. -/
def Circuit.execute_statevector (c : Circuit) (_initialState : Option Statevector) :
    Statevector :=
  ⟨c.numQubits⟩

/-- `Circuit.execute` from `circuit.py`: reject an empty circuit with
`ValueError` before the `try` block; inside the `try` block, a qubit-count
mismatch raises `ValueError`, the binding's `execute_statevector` runs (it
cannot fail), and `except Exception` re-raises everything from the block as
`RuntimeError("Circuit execution failed: " + str(e))`. -/
def Circuit.execute (c : Circuit) (initialState : Option Statevector)
    (_rng : RandomSource) : Except PyErr Statevector :=
  if c.get_gate_count = 0 then .error (.valueError "Cannot execute empty circuit")
  else
    let tryBlock : Except PyErr Statevector :=
      match initialState with
      | none => .ok (c.execute_statevector none)
      | some sv =>
          if sv.numQubits = c.numQubits then .ok (c.execute_statevector (some sv))
          else .error (.valueError (mismatchMsg sv.numQubits c.numQubits))
    match tryBlock with
    | .ok v => .ok v
    | .error e => .error (.runtimeError ("Circuit execution failed: " ++ e.message))

/-- `_Statevector.get_amplitudes` from `_internals/__init__.py` (lines
103–106): a list of `2^num_qubits` entries with amplitude `1` at index 0 and
`0` everywhere else, computed from the qubit count alone regardless of any
gates that were nominally applied. -/
def Statevector.get_amplitudes (sv : Statevector) : List ℂ :=
  (List.range (2 ^ sv.numQubits)).map fun i => if i = 0 then 1 else 0

/-- `calculate_fidelity` from `utils.py`: `|⟨ψ₁|ψ₂⟩|²` computed from the two
amplitude lists. -/
def calculate_fidelity (state1 state2 : Statevector) : ℝ :=
  Complex.abs
    ((List.zipWith (fun a b => (starRingEnd ℂ) a * b)
        state1.get_amplitudes state2.get_amplitudes).sum) ^ 2

/-! ### `DensityMatrix` wrapper (`circuit.py`) -/

/-- `omniq.DensityMatrix` wrapping `_DensityMatrix` from
`_internals/__init__.py`: the placeholder carries only its qubit count. -/
structure DensityMatrix where
  numQubits : ℕ

/-- `_DensityMatrix.apply_hadamard` / `apply_pauli_x` / `apply_pauli_y` /
`apply_pauli_z` from `_internals/__init__.py` (lines 128–138): each is
`pass` — no validation, no mutation, no failure. -/
def dmApplyNamed (d : DensityMatrix) (_qubit : ℤ) :
    Except PyErr Unit × DensityMatrix :=
  (.ok (), d)

/-- `DensityMatrix.apply_gate` from `circuit.py`: H/X/Y/Z delegate to the
binding's no-op placeholder methods, `CNOT` raises `NotImplementedError`
before touching the state, and unknown names raise `ValueError`. -/
def DensityMatrix.apply_gate (d : DensityMatrix) (gateName : String) (qubit : ℤ) :
    Except PyErr Unit × DensityMatrix :=
  if pyUpper gateName = "H" then dmApplyNamed d qubit
  else if pyUpper gateName = "X" then dmApplyNamed d qubit
  else if pyUpper gateName = "Y" then dmApplyNamed d qubit
  else if pyUpper gateName = "Z" then dmApplyNamed d qubit
  else if pyUpper gateName = "CNOT" then
    (.error (.notImplementedError "CNOT for density matrix not implemented yet"), d)
  else (.error (.valueError ("Unknown gate: " ++ gateName)), d)

/-! ### Placeholder measurement (`_internals/__init__.py`) -/

/-- State of Python's process-global `random` module, modelled as a neutral
bit stream plus the current position. -/
structure GlobalRandom where
  stream : ℕ → Bool
  pos : ℕ

/-- `_Statevector.measure` exactly as implemented in
`_internals/__init__.py`: `random.choice([0, 1])` — one draw from the
process-global source; the statevector argument is never consulted and no
seed or source can be passed through the call. -/
def placeholderMeasure (_sv : Statevector) (g : GlobalRandom) : ℕ × GlobalRandom :=
  (cond (g.stream g.pos) 1 0, ⟨g.stream, g.pos + 1⟩)

/-! ### `noise.py` -/

/-- A channel entry appended to a `NoiseModel`'s channel list. -/
inductive NoiseChannel where
  | depolarizing (probability : ℝ)
  | relaxation (t1 t2 : ℝ)

/-- `omniq.NoiseModel`: a name plus an ordered channel list. -/
structure NoiseModel where
  name : String
  channels : List NoiseChannel

/-- `NoiseModel.add_depolarizing_noise`. -/
def NoiseModel.add_depolarizing_noise (m : NoiseModel) (probability : ℝ) : NoiseModel :=
  { m with channels := m.channels ++ [.depolarizing probability] }

/-- `NoiseModel.add_relaxation_noise`. -/
def NoiseModel.add_relaxation_noise (m : NoiseModel) (t1 t2 : ℝ) : NoiseModel :=
  { m with channels := m.channels ++ [.relaxation t1 t2] }

/-- `NoiseModel.createTypicalModel` from `noise.py`. -/
def NoiseModel.createTypicalModel : NoiseModel :=
  ((NoiseModel.mk "Typical Hardware Noise" []).add_depolarizing_noise
      0.001).add_relaxation_noise 50.0 70.0

/-! ### Theorems -/

/-- C2: executing a circuit to which no gate has been added fails with the
`ValueError` rejecting the empty circuit, with or without an initial state,
before any gate is executed. -/
theorem execute_empty_circuit_rejected (nq ncb : ℕ) (init : Option Statevector)
    (rng : RandomSource) :
    Circuit.execute ⟨nq, ncb, []⟩ init rng
      = .error (.valueError "Cannot execute empty circuit") := rfl

/-- C6: `DensityMatrix.apply_gate` with gate name `CNOT` raises
`NotImplementedError` and leaves the density matrix unchanged, for every
density matrix and every qubit index. -/
theorem density_matrix_cnot_raises (d : DensityMatrix) (q : ℤ) :
    DensityMatrix.apply_gate d "CNOT" q
      = (.error (.notImplementedError "CNOT for density matrix not implemented yet"), d) := rfl

/-- C7: `NoiseModel.createTypicalModel` returns the preset named
`Typical Hardware Noise` holding exactly a depolarizing channel with
probability `0.001` followed by a relaxation channel with `T1 = 50.0`,
`T2 = 70.0`. -/
theorem createTypicalModel_channels :
    NoiseModel.createTypicalModel
      = { name := "Typical Hardware Noise",
          channels := [.depolarizing 0.001, .relaxation 50.0 70.0] } := rfl

/-- C8 (supporting evaluation of the source): the placeholder
`_Statevector.measure` returns a value that depends only on the
process-global random stream — two different statevectors measured against
the same global state give identical outcomes, and the call's only effect is
advancing the global position.  No seed or random source can be supplied
through the call. -/
theorem placeholderMeasure_ignores_state (s1 s2 : Statevector) (g : GlobalRandom) :
    (placeholderMeasure s1 g).1 = (placeholderMeasure s2 g).1
      ∧ (placeholderMeasure s1 g).2 = ⟨g.stream, g.pos + 1⟩ := ⟨rfl, rfl⟩

/-- C10 counterexample: `CNOT` is a recognized gate name, yet
`add_gate('CNOT', [0])` raises `IndexError` (too few qubit indices) instead
of returning `self`, refuting the claim that every recognized gate name
returns the circuit. -/
theorem add_gate_cnot_short_list_raises :
    (Circuit.add_gate ⟨2, 0, []⟩ "CNOT" [0] none).1
      = .error (.indexError "list index out of range") := rfl

set_option maxHeartbeats 1600000 in
/-- C10 amended: an unrecognized gate name (outside
{H, X, Y, Z, CNOT, SWAP, RX, RY, RZ, P}, case-insensitive) raises
`ValueError` and leaves the circuit unchanged; every `add_gate` call
preserves `num_qubits` and `num_classical_bits`; a recognized single-qubit
gate name with at least one qubit index, or a recognized two-qubit gate name
with at least two, succeeds. -/
theorem add_gate_behavior :
    (∀ (c : Circuit) (name : String) (qubits : List ℤ) (angle : Option ℝ),
      pyUpper name ∉ ["H", "X", "Y", "Z", "CNOT", "SWAP", "RX", "RY", "RZ", "P"] →
      Circuit.add_gate c name qubits angle
        = (.error (.valueError ("Unknown gate: " ++ name)), c))
    ∧ (∀ (c : Circuit) (name : String) (qubits : List ℤ) (angle : Option ℝ),
      (Circuit.add_gate c name qubits angle).2.numQubits = c.numQubits
        ∧ (Circuit.add_gate c name qubits angle).2.numClassicalBits = c.numClassicalBits)
    ∧ (∀ (c : Circuit) (name : String) (q : ℤ) (rest : List ℤ) (angle : Option ℝ),
      pyUpper name ∈ ["H", "X", "Y", "Z", "RX", "RY", "RZ", "P"] →
      (Circuit.add_gate c name (q :: rest) angle).1 = .ok ())
    ∧ (∀ (c : Circuit) (name : String) (q0 q1 : ℤ) (rest : List ℤ) (angle : Option ℝ),
      pyUpper name ∈ ["CNOT", "SWAP"] →
      (Circuit.add_gate c name (q0 :: q1 :: rest) angle).1 = .ok ()) := by
  refine ⟨?_, ?_, ?_, ?_⟩
  · intro c name qubits angle h
    simp only [List.mem_cons, List.not_mem_nil, or_false, not_or] at h
    obtain ⟨h1, h2, h3, h4, h5, h6, h7, h8, h9, h10⟩ := h
    simp only [Circuit.add_gate, if_neg h1, if_neg h2, if_neg h3, if_neg h4, if_neg h5,
      if_neg h6, if_neg h7, if_neg h8, if_neg h9, if_neg h10]
  · intro c name qubits angle
    simp only [Circuit.add_gate]
    generalize pyUpper name = u
    split_ifs <;>
      rcases qubits with _ | ⟨q0, _ | ⟨q1, rest⟩⟩ <;>
        exact ⟨rfl, rfl⟩
  · intro c name q rest angle h
    simp only [List.mem_cons, List.not_mem_nil, or_false] at h
    rcases h with h | h | h | h | h | h | h | h <;>
      · simp only [Circuit.add_gate, h]
        rfl
  · intro c name q0 q1 rest angle h
    simp only [List.mem_cons, List.not_mem_nil, or_false] at h
    rcases h with h | h <;>
      · simp only [Circuit.add_gate, h]
        rfl

/-- C10 witness: the amended behaviour at concrete inputs — `FOO` is
rejected with `ValueError` leaving the circuit unchanged, and
`add_gate('H', [0])` succeeds. -/
theorem add_gate_behavior_witness :
    Circuit.add_gate ⟨2, 0, []⟩ "FOO" [0] none
        = (.error (.valueError "Unknown gate: FOO"), ⟨2, 0, []⟩)
      ∧ (Circuit.add_gate ⟨2, 0, []⟩ "H" [0] none).1 = .ok () := by
  constructor
  · exact add_gate_behavior.1 ⟨2, 0, []⟩ "FOO" [0] none (by decide)
  · exact add_gate_behavior.2.2.1 ⟨2, 0, []⟩ "H" 0 [] none (by decide)

/-- C3 counterexample: executing a 1-gate 2-qubit circuit with a 1-qubit
initial state fails with `RuntimeError` — the internal mismatch `ValueError`
is caught by `except Exception` and re-raised — not with `ValueError`. -/
theorem execute_mismatch_not_valueError :
    Circuit.execute ⟨2, 0, [Gate.hadamard 0]⟩ (some ⟨1⟩) (fun _ => 0)
        = .error (.runtimeError
            "Circuit execution failed: Initial state has 1 qubits, but circuit expects 2 qubits")
      ∧ ∀ m, Circuit.execute ⟨2, 0, [Gate.hadamard 0]⟩ (some ⟨1⟩) (fun _ => 0)
          ≠ .error (.valueError m) := by
  refine ⟨rfl, ?_⟩
  intro m h
  rw [show Circuit.execute ⟨2, 0, [Gate.hadamard 0]⟩ (some ⟨1⟩) (fun _ => 0)
      = .error (.runtimeError
          "Circuit execution failed: Initial state has 1 qubits, but circuit expects 2 qubits")
    from rfl] at h
  exact absurd h (by simp)

/-- C3 amended: executing a nonempty circuit with an initial state whose
qubit count differs from the circuit's fails with `RuntimeError` whose
message wraps the qubit-count-mismatch report (the mismatch `ValueError`
raised inside the `try` block is re-raised as
`RuntimeError("Circuit execution failed: ...")`). -/
theorem execute_mismatch_wrapped (c : Circuit) (sv : Statevector) (rng : RandomSource)
    (hne : c.gates ≠ []) (hmm : sv.numQubits ≠ c.numQubits) :
    Circuit.execute c (some sv) rng
      = .error (.runtimeError ("Circuit execution failed: "
          ++ mismatchMsg sv.numQubits c.numQubits)) := by
  have hlen : ¬ c.get_gate_count = 0 := by
    simpa [Circuit.get_gate_count, List.length_eq_zero] using hne
  have hred : Circuit.execute c (some sv) rng
      = if c.get_gate_count = 0 then .error (.valueError "Cannot execute empty circuit")
        else match (if sv.numQubits = c.numQubits
            then (Except.ok (c.execute_statevector (some sv)) : Except PyErr Statevector)
            else .error (.valueError (mismatchMsg sv.numQubits c.numQubits))) with
          | .ok v => .ok v
          | .error e =>
              .error (.runtimeError ("Circuit execution failed: " ++ e.message)) := rfl
  rw [hred, if_neg hlen, if_neg hmm]
  rfl

/-- C3 witness: the amended behaviour at a concrete circuit and state. -/
theorem execute_mismatch_wrapped_witness :
    Circuit.execute ⟨3, 0, [Gate.pauliX 0]⟩ (some ⟨2⟩) (fun _ => 0)
      = .error (.runtimeError ("Circuit execution failed: " ++ mismatchMsg 2 3)) :=
  execute_mismatch_wrapped ⟨3, 0, [Gate.pauliX 0]⟩ ⟨2⟩ (fun _ => 0)
    (List.cons_ne_nil _ _) (by decide)

/-- C4 (evaluating the code at the failing input): `add_gate('H', [5])` on a
1-qubit circuit succeeds without any error, and executing the resulting
circuit also succeeds, returning a statevector — the out-of-range qubit
reference is silently dropped and no invalid-argument error is raised at
either step. -/
theorem out_of_range_silently_accepted :
    (Circuit.add_gate ⟨1, 0, []⟩ "H" [5] none).1 = .ok ()
      ∧ Circuit.execute (Circuit.add_gate ⟨1, 0, []⟩ "H" [5] none).2 none (fun _ => 0)
          = .ok ⟨1⟩ := ⟨rfl, rfl⟩

/-- Conjugating the overlap `Σ conj(aᵢ)·bᵢ` swaps the two amplitude lists. -/
lemma zipWith_conj_sum (l1 l2 : List ℂ) :
    (List.zipWith (fun a b => (starRingEnd ℂ) a * b) l2 l1).sum
      = (starRingEnd ℂ) ((List.zipWith (fun a b => (starRingEnd ℂ) a * b) l1 l2).sum) := by
  induction l1 generalizing l2 with
  | nil => cases l2 <;> simp
  | cons x xs ih =>
      cases l2 with
      | nil => simp
      | cons y ys =>
          simp only [List.zipWith_cons_cons, List.sum_cons, map_add, map_mul,
            Complex.conj_conj]
          rw [ih ys]
          ring

/-- C9: `calculate_fidelity` is symmetric in its two statevector arguments
(for amplitude sequences of equal length) and always non-negative. -/
theorem calculate_fidelity_symmetric (s1 s2 : Statevector)
    (_h : s1.get_amplitudes.length = s2.get_amplitudes.length) :
    calculate_fidelity s1 s2 = calculate_fidelity s2 s1
      ∧ 0 ≤ calculate_fidelity s1 s2 := by
  constructor
  · unfold calculate_fidelity
    rw [zipWith_conj_sum s1.get_amplitudes s2.get_amplitudes, Complex.abs_conj]
  · exact pow_nonneg (AbsoluteValue.nonneg Complex.abs _) 2

/-- C9 witness: symmetry and non-negativity at concrete one-qubit
statevectors of equal amplitude-list length. -/
theorem calculate_fidelity_symmetric_witness :
    calculate_fidelity ⟨1⟩ ⟨1⟩ = calculate_fidelity ⟨1⟩ ⟨1⟩
      ∧ 0 ≤ calculate_fidelity ⟨1⟩ ⟨1⟩ :=
  calculate_fidelity_symmetric ⟨1⟩ ⟨1⟩ rfl

end OmniQ
